import Mathlib

/-!
Verification of `src/writeWithAssistant.py`, a text client for the Google
Assistant gRPC service.  The Python source is shallowly embedded: protobuf
messages become structures, the `SampleTextAssistant` object becomes a record
whose mutable field (`conversation_state`) is threaded explicitly, one
request/response exchange becomes a finite list of response messages followed
by an outcome (normal completion or a gRPC error raised by the stream), and
`main` becomes a pure function from an environment (credential-load result,
served exchanges, prompt lines) to a trace of observable effects.
-/

/-- Opaque byte blobs (Python `bytes`), as lists of byte values. -/
abbrev Bytes := List Nat

/-- Relevant fields of the `DialogStateOut` protobuf message.  Proto3 fields
are always present; an absent field reads as its default (empty bytes or
empty string). -/
structure DialogStateOut where
  conversation_state : Bytes
  supplemental_display_text : String
deriving Repr, DecidableEq

/-- Relevant part of one `AssistResponse` message of an exchange. -/
structure AssistResponse where
  dialog_state_out : DialogStateOut
deriving Repr, DecidableEq

/-- The `AudioOutConfig` protobuf message. -/
structure AudioOutConfig where
  encoding : Nat
  sample_rate_hertz : Nat
  volume_percentage : Nat
deriving Repr, DecidableEq

/-- The `DialogStateIn` protobuf message. -/
structure DialogStateIn where
  language_code : String
  conversation_state : Bytes
deriving Repr, DecidableEq

/-- The `DeviceConfig` protobuf message. -/
structure DeviceConfig where
  device_id : String
  device_model_id : String
deriving Repr, DecidableEq

/-- The `AssistConfig` protobuf message (audio-input fields unused here). -/
structure AssistConfig where
  audio_out_config : AudioOutConfig
  dialog_state_in : DialogStateIn
  device_config : DeviceConfig
  text_query : String
deriving Repr, DecidableEq

/-- The single `AssistRequest` yielded by `iter_assist_requests`. -/
structure AssistRequest where
  config : AssistConfig
deriving Repr, DecidableEq

/-- Modelled from the spec: the static configuration module `config`
(imported by the source but not under `src/`), supplying the fixed
audio-output configuration, language default, prompt labels, endpoint,
credential path, device identifiers and default deadline.  Its values are
opaque data here; the client only passes them through. -/
structure GlobalConfig where
  audio_out_config : AudioOutConfig
  lang : String
  promptIn : String
  promptOut : String
  ASSISTANT_API_ENDPOINT : String
  pathToCredentials : String
  device_model_id : String
  device_instance_id : String
  DEFAULT_GRPC_DEADLINE : Nat
deriving Repr, DecidableEq

/-- The `SampleTextAssistant` object: per-session fields set in `__init__`.
`assistant` is the `EmbeddedAssistantStub` wrapping the gRPC channel,
identified here by the channel handle it was constructed from.
`conversation_state` starts as `None` (`none`). -/
structure SampleTextAssistant where
  language_code : String
  device_model_id : String
  device_id : String
  conversation_state : Option Bytes
  assistant : Nat
  deadline : Nat
deriving Repr, DecidableEq

/-- Python truthiness of `self.conversation_state` (`None` and empty bytes
are falsy, non-empty bytes are truthy). -/
def truthyState : Option Bytes → Bool
  | none => false
  | some b => b ≠ []

/-- The request built by `iter_assist_requests` (lines 54-76): a
`DialogStateIn` starting with empty conversation state, overwritten with the
held state when that is truthy, combined with the static audio-out
configuration, the device identifiers and the literal user text. -/
def iter_assist_requests (cfg : GlobalConfig) (s : SampleTextAssistant)
    (text_query : String) : AssistRequest :=
  let dsi : DialogStateIn :=
    { language_code := s.language_code, conversation_state := [] }
  let dsi :=
    if truthyState s.conversation_state then
      { dsi with conversation_state := s.conversation_state.getD [] }
    else dsi
  { config :=
    { audio_out_config := cfg.audio_out_config
      dialog_state_in := dsi
      device_config :=
        { device_id := s.device_id, device_model_id := s.device_model_id }
      text_query := text_query } }

/-- One iteration of the response loop in `assist` (lines 79-86): when the
message carries a truthy (non-empty) conversation state, overwrite the held
state; when it carries truthy display text, overwrite the candidate reply. -/
def assistFold (acc : SampleTextAssistant × Option String)
    (resp : AssistResponse) : SampleTextAssistant × Option String :=
  (if resp.dialog_state_out.conversation_state ≠ [] then
      { acc.1 with
        conversation_state := some resp.dialog_state_out.conversation_state }
    else acc.1,
   if resp.dialog_state_out.supplemental_display_text ≠ "" then
      some resp.dialog_state_out.supplemental_display_text
    else acc.2)

/-- Errors the gRPC call can raise. -/
inductive GrpcError where
  | deadlineExceeded
  | transportFailure
deriving Repr, DecidableEq

/-- One exchange as observed by the client: the response messages the stream
delivered, followed by its outcome — `none` when the stream completed
normally, `some e` when iteration raised `e` after those messages. -/
structure Exchange where
  messages : List AssistResponse
  outcome : Option GrpcError
deriving Repr, DecidableEq

/-- The `assist` method (lines 51-87).  `display_text` starts as `None`; the
loop body runs once per delivered message (mutations to `self` persist even
if the stream later raises); the raised error, if any, propagates to the
caller uncaught.  Returns the post-call object together with the call result:
`Except.ok display_text` on normal completion, `Except.error e` otherwise. -/
def assist (s : SampleTextAssistant) (ex : Exchange) :
    SampleTextAssistant × Except GrpcError (Option String) :=
  let r := ex.messages.foldl assistFold (s, none)
  match ex.outcome with
  | none => (r.1, Except.ok r.2)
  | some e => (r.1, Except.error e)

/-- Specification-side reading: the last non-empty conversation state carried
by a list of messages, if any. -/
def lastNonEmptyCS : List AssistResponse → Option Bytes
  | [] => none
  | r :: rs =>
    match lastNonEmptyCS rs with
    | some b => some b
    | none =>
      if r.dialog_state_out.conversation_state ≠ [] then
        some r.dialog_state_out.conversation_state
      else none

/-- Specification-side reading: the last non-empty display text carried by a
list of messages, if any. -/
def lastNonEmptyText : List AssistResponse → Option String
  | [] => none
  | r :: rs =>
    match lastNonEmptyText rs with
    | some t => some t
    | none =>
      if r.dialog_state_out.supplemental_display_text ≠ "" then
        some r.dialog_state_out.supplemental_display_text
      else none

/-- Closed form of the response loop: the final object differs from the
initial one only in `conversation_state`, which receives the last non-empty
state of the messages (else keeps its old value), and the reply candidate
receives the last non-empty display text (else keeps the accumulator). -/
lemma foldl_assistFold (msgs : List AssistResponse) (s : SampleTextAssistant)
    (dt : Option String) :
    msgs.foldl assistFold (s, dt) =
      ({ s with conversation_state :=
          match lastNonEmptyCS msgs with
          | some b => some b
          | none => s.conversation_state },
       match lastNonEmptyText msgs with
       | some t => some t
       | none => dt) := by
  induction msgs generalizing s dt with
  | nil => simp [lastNonEmptyCS, lastNonEmptyText]
  | cons r rs ih =>
    rw [List.foldl_cons, assistFold, ih]
    rcases hcs : lastNonEmptyCS rs with _ | b <;>
      rcases htx : lastNonEmptyText rs with _ | t <;>
        by_cases hc : r.dialog_state_out.conversation_state = [] <;>
          by_cases ht : r.dialog_state_out.supplemental_display_text = "" <;>
            simp [lastNonEmptyCS, lastNonEmptyText, hcs, htx, hc, ht]

/-- First component of `assist`: the post-call object keeps every field of
the pre-call object except `conversation_state`, which receives the last
non-empty state among the delivered messages (else its old value). -/
lemma assist_fst (s : SampleTextAssistant) (ex : Exchange) :
    (assist s ex).1 =
      { s with conversation_state :=
          match lastNonEmptyCS ex.messages with
          | some b => some b
          | none => s.conversation_state } := by
  unfold assist
  cases ex.outcome <;> simp [foldl_assistFold]

/-- Concrete session used by witness and counterexample theorems. -/
def sampleSession : SampleTextAssistant :=
  { language_code := "en-US"
    device_model_id := "modelA"
    device_id := "device1"
    conversation_state := none
    assistant := 7
    deadline := 60 }

/-- Concrete response carrying only a conversation state. -/
def respStateOnly : AssistResponse := ⟨⟨[1], ""⟩⟩

/-- Concrete response carrying only display text. -/
def respTextOnly : AssistResponse := ⟨⟨[], "R1"⟩⟩

/-- Concrete response carrying both fields. -/
def respBoth : AssistResponse := ⟨⟨[2, 3], "R2"⟩⟩

/-- Concrete response carrying neither field. -/
def respNeither : AssistResponse := ⟨⟨[], ""⟩⟩

/-- C1: on an exchange that completes normally, `assist` returns the last
non-empty display text observed across all delivered messages (`none` when no
message carried display text), and independently the held conversation state
becomes the last non-empty conversation state observed (unchanged when none
was carried); later messages overwrite earlier candidates per field. -/
theorem assist_returns_last_nonempty_display_text (s : SampleTextAssistant)
    (ex : Exchange) (h : ex.outcome = none) :
    (assist s ex).2 = Except.ok (lastNonEmptyText ex.messages) ∧
    (assist s ex).1.conversation_state =
      (match lastNonEmptyCS ex.messages with
       | some b => some b
       | none => s.conversation_state) := by
  refine ⟨?_, ?_⟩
  · simp only [assist, h, foldl_assistFold]
    cases lastNonEmptyText ex.messages <;> rfl
  · rw [assist_fst]

/-- Witness for C1 at a concrete two-message exchange. -/
theorem assist_returns_last_nonempty_display_text_witness :
    (Exchange.mk [respBoth, respStateOnly] none).outcome = none ∧
    ((assist sampleSession (Exchange.mk [respBoth, respStateOnly] none)).2
        = Except.ok (lastNonEmptyText [respBoth, respStateOnly]) ∧
      (assist sampleSession
          (Exchange.mk [respBoth, respStateOnly] none)).1.conversation_state =
        (match lastNonEmptyCS [respBoth, respStateOnly] with
         | some b => some b
         | none => sampleSession.conversation_state)) :=
  ⟨rfl,
   assist_returns_last_nonempty_display_text sampleSession
     (Exchange.mk [respBoth, respStateOnly] none) rfl⟩

/-- A whole sequence of `assist` calls on one session, returning the final
session object; call k consumes the k-th exchange. -/
def runCalls (s : SampleTextAssistant) (exs : List Exchange) :
    SampleTextAssistant :=
  exs.foldl (fun s ex => (assist s ex).1) s

/-- Every exchange of the list completed normally (its call succeeded). -/
def allSuccessful (exs : List Exchange) : Bool :=
  exs.all (fun ex => ex.outcome = none)

/-- All response messages delivered across a list of exchanges, in order. -/
def allMessages (exs : List Exchange) : List AssistResponse :=
  (exs.map Exchange.messages).flatten

lemma lastNonEmptyCS_append (a b : List AssistResponse) :
    lastNonEmptyCS (a ++ b) =
      (match lastNonEmptyCS b with
       | some x => some x
       | none => lastNonEmptyCS a) := by
  induction a with
  | nil => simp [lastNonEmptyCS]; cases lastNonEmptyCS b <;> rfl
  | cons r rs ih =>
    rw [List.cons_append]
    simp only [lastNonEmptyCS, ih]
    cases lastNonEmptyCS b <;> cases lastNonEmptyCS rs <;> rfl

/-- C2: after any sequence of successful calls, the held conversation state
equals the last non-empty conversation state received across all messages of
all those calls; when no call delivered a non-empty state the initial value
is kept intact (state is replaced wholesale, never merged). -/
theorem conversation_state_carry_forward (s : SampleTextAssistant)
    (exs : List Exchange) (h : allSuccessful exs = true) :
    (runCalls s exs).conversation_state =
      (match lastNonEmptyCS (allMessages exs) with
       | some b => some b
       | none => s.conversation_state) := by
  clear h
  induction exs generalizing s with
  | nil => rfl
  | cons ex exs ih =>
    show (runCalls (assist s ex).1 exs).conversation_state = _
    rw [ih, assist_fst]
    show _ = (match lastNonEmptyCS (ex.messages ++ allMessages exs) with
              | some b => some b
              | none => s.conversation_state)
    rw [lastNonEmptyCS_append]
    cases lastNonEmptyCS (allMessages exs) <;>
      cases lastNonEmptyCS ex.messages <;> rfl

/-- Witness for C2: two successful calls, the second delivering no state. -/
theorem conversation_state_carry_forward_witness :
    allSuccessful
        [Exchange.mk [respStateOnly] none,
         Exchange.mk [respTextOnly] none] = true ∧
    (runCalls sampleSession
        [Exchange.mk [respStateOnly] none,
         Exchange.mk [respTextOnly] none]).conversation_state =
      (match lastNonEmptyCS (allMessages
          [Exchange.mk [respStateOnly] none,
           Exchange.mk [respTextOnly] none]) with
       | some b => some b
       | none => sampleSession.conversation_state) :=
  ⟨rfl,
   conversation_state_carry_forward sampleSession
     [Exchange.mk [respStateOnly] none, Exchange.mk [respTextOnly] none]
     rfl⟩

/-- C9: a successful `assist` call changes at most `conversation_state`:
language code, device model id, device id, the stub handle and the deadline
all keep their pre-call values. -/
theorem assist_frame (s : SampleTextAssistant) (ex : Exchange)
    (h : ex.outcome = none) :
    (assist s ex).1.language_code = s.language_code ∧
    (assist s ex).1.device_model_id = s.device_model_id ∧
    (assist s ex).1.device_id = s.device_id ∧
    (assist s ex).1.assistant = s.assistant ∧
    (assist s ex).1.deadline = s.deadline := by
  clear h
  rw [assist_fst]
  exact ⟨rfl, rfl, rfl, rfl, rfl⟩

/-- Witness for C9 at a concrete exchange. -/
theorem assist_frame_witness :
    (Exchange.mk [respBoth] none).outcome = none ∧
    ((assist sampleSession (Exchange.mk [respBoth] none)).1.language_code
        = sampleSession.language_code ∧
      (assist sampleSession (Exchange.mk [respBoth] none)).1.device_model_id
        = sampleSession.device_model_id ∧
      (assist sampleSession (Exchange.mk [respBoth] none)).1.device_id
        = sampleSession.device_id ∧
      (assist sampleSession (Exchange.mk [respBoth] none)).1.assistant
        = sampleSession.assistant ∧
      (assist sampleSession (Exchange.mk [respBoth] none)).1.deadline
        = sampleSession.deadline) :=
  ⟨rfl, assist_frame sampleSession (Exchange.mk [respBoth] none) rfl⟩

/-- C4 counterexample: a call that fails with deadline-exceeded after one
message carrying conversation state was already delivered propagates the
error, yet the held conversation state is NOT left as it was before the call:
the update from the already-received message persists. -/
theorem assist_failure_partial_update :
    (assist sampleSession
        (Exchange.mk [respStateOnly] (some GrpcError.deadlineExceeded))).2
      = Except.error GrpcError.deadlineExceeded ∧
    (assist sampleSession
        (Exchange.mk [respStateOnly]
          (some GrpcError.deadlineExceeded))).1.conversation_state
      ≠ sampleSession.conversation_state := by
  exact ⟨rfl, by decide⟩

/-- C4 amended: when the exchange fails, the error propagates to the caller
as a failed call, and the held conversation state equals the fold of the
messages delivered before the failure: it is unchanged only when none of
those messages carried a non-empty conversation state. -/
theorem assist_error_propagates (s : SampleTextAssistant) (ex : Exchange)
    (e : GrpcError) (h : ex.outcome = some e) :
    (assist s ex).2 = Except.error e ∧
    (assist s ex).1.conversation_state =
      (match lastNonEmptyCS ex.messages with
       | some b => some b
       | none => s.conversation_state) := by
  refine ⟨?_, ?_⟩
  · simp only [assist, h]
  · rw [assist_fst]

/-- Witness for the amended statement of C4: a transport failure before any
message leaves the state unchanged and surfaces as an error. -/
theorem assist_error_propagates_witness :
    (Exchange.mk [] (some GrpcError.transportFailure)).outcome
      = some GrpcError.transportFailure ∧
    ((assist sampleSession
        (Exchange.mk [] (some GrpcError.transportFailure))).2
        = Except.error GrpcError.transportFailure ∧
      (assist sampleSession
          (Exchange.mk [] (some GrpcError.transportFailure))).1.conversation_state
        = (match lastNonEmptyCS ([] : List AssistResponse) with
           | some b => some b
           | none => sampleSession.conversation_state)) :=
  ⟨rfl,
   assist_error_propagates sampleSession
     (Exchange.mk [] (some GrpcError.transportFailure))
     GrpcError.transportFailure rfl⟩

/-- C3: every request built by `iter_assist_requests` carries an empty
conversation state when the session holds none, and the held bytes verbatim
otherwise, together with the session language code, the static audio-out
configuration, the device model id, the device instance id and the literal
user text. -/
theorem request_carries_session_fields (cfg : GlobalConfig)
    (s : SampleTextAssistant) (text : String) :
    (iter_assist_requests cfg s text).config.dialog_state_in.conversation_state
      = (match s.conversation_state with
         | none => ([] : Bytes)
         | some b => b) ∧
    (iter_assist_requests cfg s text).config.dialog_state_in.language_code
      = s.language_code ∧
    (iter_assist_requests cfg s text).config.audio_out_config
      = cfg.audio_out_config ∧
    (iter_assist_requests cfg s text).config.device_config.device_model_id
      = s.device_model_id ∧
    (iter_assist_requests cfg s text).config.device_config.device_id
      = s.device_id ∧
    (iter_assist_requests cfg s text).config.text_query = text := by
  rcases hcs : s.conversation_state with _ | b
  · simp [iter_assist_requests, truthyState, hcs]
  · by_cases hb : b = []
    · subst hb
      simp [iter_assist_requests, truthyState, hcs]
    · simp [iter_assist_requests, truthyState, hcs, hb]

/-- Python percent-formatting of the reply (line 150): the string rendering
of the value, which is the literal `None` when the reply is absent. -/
def pyFormat : Option String → String
  | none => "None"
  | some t => t

/-- The line echoed per interactive turn (line 156):
the promptOut label of the static configuration concatenated with a space
and the percent-formatted reply. -/
def interactiveEcho (cfg : GlobalConfig) (dt : Option String) : String :=
  cfg.promptOut ++ (" " ++ pyFormat dt)

/-- Python truthiness of the `--input` option value (line 147): the default
`False` (modelled `none`) and the empty string are falsy; any non-empty
string is truthy. -/
def truthyInput : Option String → Bool
  | none => false
  | some t => t ≠ ""

/-- The `__exit__` method (lines 47-49): `if e: return False` — it returns
`False` when an exception is passed and falls through to `None` otherwise; it
performs no channel cleanup. -/
def exitHookResult (e : Option GrpcError) : Option Bool :=
  match e with
  | some _ => some false
  | none => none

/-- Python truthiness of the value `__exit__` returned; a truthy value would
suppress the exception raised in the `with` block. -/
def truthyExitResult : Option Bool → Bool
  | none => false
  | some b => b

/-- How an error raised inside the `with` block leaves `main`: the exception
is suppressed only if `__exit__` returns a truthy value, which it never
does. -/
def propagateThroughExit : Option GrpcError → Option GrpcError
  | none => none
  | some e => if truthyExitResult (exitHookResult (some e)) then none else some e

/-- Environment of one run of `main`: the outcome of opening, parsing and
refreshing the credential file, the handle the channel construction returns,
the exchanges the remote service serves to successive calls, and the lines
the operator types before externally interrupting the interactive loop. -/
structure Env where
  credResult : Except String Unit
  channelId : Nat
  exchanges : List Exchange
  promptLines : List String

/-- The command-line arguments of `main` (lines 121-123). -/
structure MainArgs where
  api_endpoint : String
  credentials : String
  device_model_id : String
  device_id : String
  lang : String
  verbose : Bool
  grpc_deadline : Nat
  input : Option String

/-- Observable effects of one run of `main`: logged error lines, handles of
channels created and of channels explicitly closed, number of session
objects constructed, which branch of `if input:` ran, the assist calls made
(text and stub channel, in order), the lines printed, and the exception that
escaped `main` (terminating the process), if any. -/
structure MainTrace where
  loggedErrors : List String
  channelsCreated : List Nat
  channelsClosed : List Nat
  sessionsCreated : Nat
  singleShot : Bool
  calls : List (String × Nat)
  printed : List String
  uncaught : Option GrpcError
deriving Repr, DecidableEq

/-- The exchange observed when the service closes the stream immediately. -/
def defaultExchange : Exchange := { messages := [], outcome := none }

/-- The session object constructed at line 145:
`SampleTextAssistant(lang, device_model_id, device_id, grpc_channel,
grpc_deadline)`. -/
def initSession (env : Env) (args : MainArgs) : SampleTextAssistant :=
  { language_code := args.lang
    device_model_id := args.device_model_id
    device_id := args.device_id
    conversation_state := none
    assistant := env.channelId
    deadline := args.grpc_deadline }

/-- The interactive loop (lines 152-156): per typed line, call `assist` and
echo the labelled reply; a raised error ends the loop (and the process)
with nothing printed for that turn.  Returns the calls made, the lines
printed, and the error that escaped, if any. -/
def interactiveLoop (cfg : GlobalConfig) (s : SampleTextAssistant) :
    List String → List Exchange →
      List (String × Nat) × List String × Option GrpcError
  | [], _ => ([], [], none)
  | t :: ts, exs =>
    let r := assist s (exs.headD defaultExchange)
    match r.2 with
    | Except.ok dt =>
      let rest := interactiveLoop cfg r.1 ts exs.tail
      ((t, s.assistant) :: rest.1,
       interactiveEcho cfg dt :: rest.2.1,
       rest.2.2)
    | Except.error e => ([(t, s.assistant)], [], some e)

/-- The `main` function (lines 121-156), as a trace of observable effects.
On a credential-load failure it logs two error lines and returns before any
channel or session exists; otherwise it creates the channel once, constructs
one session, and runs either the single-shot branch or the interactive
loop. -/
def runMain (cfg : GlobalConfig) (env : Env) (args : MainArgs) : MainTrace :=
  match env.credResult with
  | Except.error e =>
    { loggedErrors :=
        ["Error loading credentials: " ++ e,
         "Run google-oauthlib-tool to initialize new OAuth 2.0 credentials."]
      channelsCreated := []
      channelsClosed := []
      sessionsCreated := 0
      singleShot := false
      calls := []
      printed := []
      uncaught := none }
  | Except.ok _ =>
    let session := initSession env args
    if truthyInput args.input then
      let t := args.input.getD ("")
      let r := assist session (env.exchanges.headD defaultExchange)
      match r.2 with
      | Except.ok dt =>
        { loggedErrors := []
          channelsCreated := [env.channelId]
          channelsClosed := []
          sessionsCreated := 1
          singleShot := true
          calls := [(t, session.assistant)]
          printed := [pyFormat dt]
          uncaught := none }
      | Except.error e =>
        { loggedErrors := []
          channelsCreated := [env.channelId]
          channelsClosed := []
          sessionsCreated := 1
          singleShot := true
          calls := [(t, session.assistant)]
          printed := []
          uncaught := propagateThroughExit (some e) }
    else
      let r := interactiveLoop cfg session env.promptLines env.exchanges
      { loggedErrors := []
        channelsCreated := [env.channelId]
        channelsClosed := []
        sessionsCreated := 1
        singleShot := false
        calls := r.1
        printed := r.2.1
        uncaught := propagateThroughExit r.2.2 }

/-- Concrete configuration used by witness and counterexample theorems. -/
def cfgSample : GlobalConfig :=
  { audio_out_config :=
      { encoding := 1, sample_rate_hertz := 16000, volume_percentage := 100 }
    lang := "en-US"
    promptIn := "Me"
    promptOut := "Assistant"
    ASSISTANT_API_ENDPOINT := "embeddedassistant.googleapis.com"
    pathToCredentials := "credentials.json"
    device_model_id := "modelA"
    device_instance_id := "device1"
    DEFAULT_GRPC_DEADLINE := 185 }

/-- Concrete arguments selecting single-shot mode. -/
def argsSingle : MainArgs :=
  { api_endpoint := "embeddedassistant.googleapis.com"
    credentials := "credentials.json"
    device_model_id := "modelA"
    device_id := "device1"
    lang := "en-US"
    verbose := false
    grpc_deadline := 185
    input := some ("hello") }

/-- Concrete arguments selecting interactive mode (no `--input`). -/
def argsInteractive : MainArgs := { argsSingle with input := none }

/-- Concrete environment: credentials load, one exchange with a reply. -/
def envOk : Env :=
  { credResult := Except.ok ()
    channelId := 5
    exchanges := [Exchange.mk [respBoth] none]
    promptLines := ["hi"] }

/-- Concrete environment where the credential file cannot be loaded. -/
def envCredFail : Env :=
  { credResult := Except.error ("credential file missing")
    channelId := 5
    exchanges := []
    promptLines := [] }

/-- Concrete environment whose one exchange carries no display text. -/
def envNoText : Env :=
  { credResult := Except.ok ()
    channelId := 5
    exchanges := [Exchange.mk [respStateOnly] none]
    promptLines := [] }

/-- C6: on a credential-load failure, `main` logs the descriptive error and
the remediation line, and returns before any channel or session exists, so
no assist call is ever attempted and no exception escapes. -/
theorem credential_failure_no_rpc (cfg : GlobalConfig) (env : Env)
    (args : MainArgs) (e : String) (h : env.credResult = Except.error e) :
    (runMain cfg env args).loggedErrors =
      ["Error loading credentials: " ++ e,
       "Run google-oauthlib-tool to initialize new OAuth 2.0 credentials."] ∧
    (runMain cfg env args).channelsCreated = [] ∧
    (runMain cfg env args).sessionsCreated = 0 ∧
    (runMain cfg env args).calls = [] ∧
    (runMain cfg env args).uncaught = none := by
  simp [runMain, h]

/-- Witness for C6 at a concrete failing environment. -/
theorem credential_failure_no_rpc_witness :
    envCredFail.credResult = Except.error ("credential file missing") ∧
    ((runMain cfgSample envCredFail argsSingle).loggedErrors =
        ["Error loading credentials: " ++ "credential file missing",
         "Run google-oauthlib-tool to initialize new OAuth 2.0 credentials."] ∧
      (runMain cfgSample envCredFail argsSingle).channelsCreated = [] ∧
      (runMain cfgSample envCredFail argsSingle).sessionsCreated = 0 ∧
      (runMain cfgSample envCredFail argsSingle).calls = [] ∧
      (runMain cfgSample envCredFail argsSingle).uncaught = none) :=
  ⟨rfl,
   credential_failure_no_rpc cfgSample envCredFail argsSingle
     ("credential file missing") rfl⟩

/-- C7: with a non-empty `--input` text and a successful exchange, `main`
runs the single-shot branch, makes exactly one assist call carrying the
supplied text, prints the one formatted reply line, and exits cleanly with
no exception, whether or not a reply was produced. -/
theorem single_shot_calls_once (cfg : GlobalConfig) (env : Env)
    (args : MainArgs) (t : String)
    (hc : env.credResult = Except.ok ())
    (hi : args.input = some t)
    (ht : t ≠ "")
    (hex : (env.exchanges.headD defaultExchange).outcome = none) :
    (runMain cfg env args).singleShot = true ∧
    (runMain cfg env args).calls = [(t, env.channelId)] ∧
    (runMain cfg env args).printed =
      [pyFormat
        (lastNonEmptyText (env.exchanges.headD defaultExchange).messages)] ∧
    (runMain cfg env args).uncaught = none := by
  have htr : truthyInput (some t) = true := by
    simp [truthyInput, ht]
  have h2 : (assist (initSession env args)
        (env.exchanges.headD defaultExchange)).2
      = Except.ok
          (lastNonEmptyText (env.exchanges.headD defaultExchange).messages) :=
    (assist_returns_last_nonempty_display_text _ _ hex).1
  simp only [runMain, hc, hi, htr, eq_self_iff_true, if_true, h2,
    Option.getD_some]
  refine ⟨?_, ?_, ?_, ?_⟩ <;> trivial

/-- Witness for C7 at a concrete single-shot run replying with text. -/
theorem single_shot_calls_once_witness :
    envOk.credResult = Except.ok () ∧
    argsSingle.input = some ("hello") ∧
    "hello" ≠ "" ∧
    (envOk.exchanges.headD defaultExchange).outcome = none ∧
    ((runMain cfgSample envOk argsSingle).singleShot = true ∧
      (runMain cfgSample envOk argsSingle).calls = [("hello", 5)] ∧
      (runMain cfgSample envOk argsSingle).printed =
        [pyFormat
          (lastNonEmptyText (envOk.exchanges.headD defaultExchange).messages)] ∧
      (runMain cfgSample envOk argsSingle).uncaught = none) :=
  ⟨rfl, rfl, by decide, rfl,
   single_shot_calls_once cfgSample envOk argsSingle ("hello") rfl rfl
     (by decide) rfl⟩

/-- C10: when credentials load, the branch taken is decided solely by Python
truthiness of the `--input` value, so a supplied empty string is falsy and
selects interactive mode just like the absent default; only a non-empty
string selects the single-shot branch. -/
theorem mode_selected_by_input_truthiness (cfg : GlobalConfig) (env : Env)
    (args : MainArgs) (hc : env.credResult = Except.ok ()) :
    (runMain cfg env args).singleShot = truthyInput args.input ∧
    truthyInput (some ("")) = false ∧
    truthyInput none = false := by
  refine ⟨?_, by decide, rfl⟩
  cases htr : truthyInput args.input with
  | false => simp [runMain, hc, htr]
  | true =>
    cases hr : (assist (initSession env args)
        (env.exchanges.headD defaultExchange)).2 with
    | ok dt =>
      simp only [runMain, hc, htr, eq_self_iff_true, if_true, hr]
    | error e =>
      simp only [runMain, hc, htr, eq_self_iff_true, if_true, hr]

/-- Witness for C10 at a concrete interactive run. -/
theorem mode_selected_by_input_truthiness_witness :
    envOk.credResult = Except.ok () ∧
    ((runMain cfgSample envOk argsInteractive).singleShot
        = truthyInput argsInteractive.input ∧
      truthyInput (some ("")) = false ∧
      truthyInput none = false) :=
  ⟨rfl, mode_selected_by_input_truthiness cfgSample envOk argsInteractive rfl⟩

/-- The call went through the stub built on channel handle `n`. -/
def usesChannel (n : Nat) (c : Nat) : Bool := c = n

lemma assist_assistant (s : SampleTextAssistant) (ex : Exchange) :
    (assist s ex).1.assistant = s.assistant := by
  rw [assist_fst]

lemma interactiveLoop_channels (cfg : GlobalConfig) (ts : List String)
    (s : SampleTextAssistant) (exs : List Exchange) :
    ((interactiveLoop cfg s ts exs).1.map Prod.snd).all
      (usesChannel s.assistant) = true := by
  induction ts generalizing s exs with
  | nil => rfl
  | cons t ts ih =>
    have h1 := ih (assist s (exs.headD defaultExchange)).1 exs.tail
    rw [assist_assistant] at h1
    cases hr : (assist s (exs.headD defaultExchange)).2 with
    | ok dt =>
      simp only [interactiveLoop, hr, List.map_cons, List.all_cons, h1,
        Bool.and_true]
      simp [usesChannel]
    | error e =>
      simp only [interactiveLoop, hr]
      simp [usesChannel]

/-- C8 counterexample: a run that completes normally (single-shot, clean
exit path) creates the channel, yet no channel is ever explicitly closed —
the `__exit__` hook of the session performs no cleanup. -/
theorem channel_not_closed_on_normal_exit :
    (runMain cfgSample envOk argsSingle).uncaught = none ∧
    (runMain cfgSample envOk argsSingle).channelsCreated = [5] ∧
    (runMain cfgSample envOk argsSingle).channelsClosed = [] := by
  exact ⟨rfl, rfl, rfl⟩

/-- C8 amended: when credentials load, exactly one channel is created, its
stub is the one every assist call of the run goes through, and no exit path
explicitly closes it: release is left to ordinary object lifetime at process
termination. -/
theorem channel_created_once_reused_never_closed (cfg : GlobalConfig)
    (env : Env) (args : MainArgs) (hc : env.credResult = Except.ok ()) :
    (runMain cfg env args).channelsCreated = [env.channelId] ∧
    (runMain cfg env args).channelsClosed = [] ∧
    ((runMain cfg env args).calls.map Prod.snd).all
      (usesChannel env.channelId) = true := by
  cases htr : truthyInput args.input with
  | true =>
    cases hr : (assist (initSession env args)
        (env.exchanges.headD defaultExchange)).2 with
    | ok dt =>
      simp only [runMain, hc, htr, eq_self_iff_true, if_true, hr]
      simp [initSession, usesChannel]
    | error e =>
      simp only [runMain, hc, htr, eq_self_iff_true, if_true, hr]
      simp [initSession, usesChannel]
  | false =>
    have h1 := interactiveLoop_channels cfg env.promptLines
      (initSession env args) env.exchanges
    have ha : (initSession env args).assistant = env.channelId := rfl
    rw [ha] at h1
    simp only [runMain, hc, htr, Bool.false_eq_true, if_false]
    exact ⟨trivial, trivial, h1⟩

/-- Witness for the amended statement of C8 at a concrete single-shot run. -/
theorem channel_created_once_reused_never_closed_witness :
    envOk.credResult = Except.ok () ∧
    ((runMain cfgSample envOk argsSingle).channelsCreated
        = [envOk.channelId] ∧
      (runMain cfgSample envOk argsSingle).channelsClosed = [] ∧
      ((runMain cfgSample envOk argsSingle).calls.map Prod.snd).all
        (usesChannel envOk.channelId) = true) :=
  ⟨rfl,
   channel_created_once_reused_never_closed cfgSample envOk argsSingle rfl⟩

/-- C5 counterexample: a call whose response carries no display text
completes without error, but the program prints the line `None` — the Python
rendering of the absent reply — not an empty/blank line. -/
theorem empty_reply_printed_as_None :
    (runMain cfgSample envNoText argsSingle).uncaught = none ∧
    (runMain cfgSample envNoText argsSingle).printed = ["None"] ∧
    ¬ (runMain cfgSample envNoText argsSingle).printed = [""] := by
  refine ⟨rfl, rfl, by decide⟩

/-- C5 amended: a call whose response carries no display text yields an
absent reply and never an error, and the program prints the Python string
rendering of that absent value — the line `None` in single-shot mode, and
the output label followed by ` None` in interactive mode — rather than a
blank line. -/
theorem empty_reply_absent_never_error_prints_None (cfg : GlobalConfig)
    (env : Env) (args : MainArgs) (t : String)
    (hc : env.credResult = Except.ok ())
    (hi : args.input = some t)
    (ht : t ≠ "")
    (hex : (env.exchanges.headD defaultExchange).outcome = none)
    (hno : lastNonEmptyText
      (env.exchanges.headD defaultExchange).messages = none) :
    (assist (initSession env args) (env.exchanges.headD defaultExchange)).2
      = Except.ok none ∧
    (runMain cfg env args).uncaught = none ∧
    (runMain cfg env args).printed = ["None"] ∧
    interactiveEcho cfg none = cfg.promptOut ++ " None" := by
  have h2 : (assist (initSession env args)
        (env.exchanges.headD defaultExchange)).2 = Except.ok none := by
    rw [(assist_returns_last_nonempty_display_text _ _ hex).1, hno]
  have htr : truthyInput (some t) = true := by
    simp [truthyInput, ht]
  refine ⟨h2, ?_, ?_, ?_⟩
  · simp only [runMain, hc, hi, htr, eq_self_iff_true, if_true, h2]
  · simp only [runMain, hc, hi, htr, eq_self_iff_true, if_true, h2]
    rfl
  · rfl

/-- Witness for the amended statement of C5 at a concrete text-free
exchange. -/
theorem empty_reply_absent_never_error_prints_None_witness :
    envNoText.credResult = Except.ok () ∧
    argsSingle.input = some ("hello") ∧
    "hello" ≠ "" ∧
    (envNoText.exchanges.headD defaultExchange).outcome = none ∧
    lastNonEmptyText
      (envNoText.exchanges.headD defaultExchange).messages = none ∧
    ((assist (initSession envNoText argsSingle)
        (envNoText.exchanges.headD defaultExchange)).2 = Except.ok none ∧
      (runMain cfgSample envNoText argsSingle).uncaught = none ∧
      (runMain cfgSample envNoText argsSingle).printed = ["None"] ∧
      interactiveEcho cfgSample none = cfgSample.promptOut ++ " None") :=
  ⟨rfl, rfl, by decide, rfl, by decide,
   empty_reply_absent_never_error_prints_None cfgSample envNoText argsSingle
     ("hello") rfl rfl (by decide) rfl (by decide)⟩
